import Mathlib

/-!
Verification development for the pdf-intelligence-engine repository.

The Lean definitions below are a shallow embedding of the Python sources:

* `src/challenge1a/src/outline_extractor.py` (class `OutlineExtractor`),
* `src/challenge1a_solution.py` (class `PDFOutlineExtractor`),
* `src/challenge1b/src/persona_extractor.py` (class `PersonaTaskSectionExtractor`).

Modelling conventions:

* Python strings are modelled as `String` / `List Char`; the character
  predicates (`\d`, `\s`, `str.islower`, ...) are modelled with their ASCII
  semantics, which agree with Python on all ASCII text (the Python versions
  additionally accept some non-ASCII code points).
* Python floats are modelled as exact rationals (`ℚ`).  All float
  comparisons in the sources compare quantities that are far from the
  representation error of IEEE doubles for the inputs of interest, so the
  exact model and the float computation decide every comparison alike
  (this is argued at each threshold constant below).
* External collaborators that the sources call (PyMuPDF document access,
  sklearn KMeans cluster labels, the langdetect `detect` function, the
  sklearn text-classifier inside the 1b scorer) are taken as explicit
  function parameters, mirroring spec section 6 which declares them
  out-of-scope external interfaces.
* Fallible calls are modelled with `Except`.
* Python's `list.sort` / `sorted` are stable sorts; the model uses
  `List.insertionSort`, which is also stable, and a stable sort with
  respect to a total preorder is unique, so both produce the same list.
-/

namespace PdfEngine

/-- Whitespace class of Python's `str.strip` and of the regex class `\s`
(ASCII part): space, tab, newline, carriage return, vertical tab, form feed. -/
def pyIsSpace (c : Char) : Bool :=
  c = ' ' || c = '\t' || c = '\n' || c = '\r' || c = '\x0b' || c = '\x0c'

/-- Python `str.strip()`: drop leading and trailing whitespace. -/
def pyStrip (s : List Char) : List Char :=
  List.rdropWhile pyIsSpace (s.dropWhile pyIsSpace)

/-- Python `str.lower()` on ASCII text (character-wise `Char.toLower`). -/
def toLowerL (s : List Char) : List Char :=
  s.map Char.toLower

/-- Worker of `collapseWS`; the flag records whether the previous kept
character position was inside a whitespace run (whose first character has
already been emitted as a single space). -/
def collapseGo : Bool → List Char → List Char
  | _, [] => []
  | prevWs, c :: rest =>
    if pyIsSpace c then
      if prevWs then collapseGo true rest else ' ' :: collapseGo true rest
    else c :: collapseGo false rest

/-- Model of `re.sub(r'\s+', ' ', text)`: every maximal whitespace run is
replaced by a single space character. -/
def collapseWS (s : List Char) : List Char :=
  collapseGo false s

/-- Character class `[\d\.\-\s]` of the leading-numbering strip in
`OutlineExtractor._build_outline` (line 339). -/
def leadClass (c : Char) : Bool :=
  c.isDigit || c = '.' || c = '-' || pyIsSpace c

/-- Character class `[\.\-\s]` of the trailing-punctuation strip in
`OutlineExtractor._build_outline` (line 340). -/
def trailClass (c : Char) : Bool :=
  c = '.' || c = '-' || pyIsSpace c

/-- Model of `re.sub(r'^[\d\.\-\s]+', '', text).strip()` (line 339).  The
anchored regex removes exactly the maximal prefix of `leadClass` characters. -/
def stripLeadNumbering (s : List Char) : List Char :=
  pyStrip (s.dropWhile leadClass)

/-- Model of `re.sub(r'[\.\-\s]+$', '', text).strip()` (line 340).  The
anchored regex removes exactly the maximal suffix of `trailClass` characters
(`$` can also match before a final newline, but a final newline is itself in
the class, so the removed suffix is the same maximal run). -/
def stripTrailPunct (s : List Char) : List Char :=
  pyStrip (List.rdropWhile trailClass s)

/-- Model of the first-letter capitalization in `_build_outline`
(lines 347-348): `if text and text[0].islower(): text = text[0].upper() + text[1:]`. -/
def capFirst : List Char → List Char
  | [] => []
  | c :: rest => if c.isLower then c.toUpper :: rest else c :: rest

/-- The Outline Builder text-cleaning step of `_build_outline`
(lines 337-348), as one function on strings: strip, collapse whitespace
runs, strip leading numbering, strip trailing punctuation, capitalize a
lower-case first letter. -/
def cleanHeadingText (s : List Char) : List Char :=
  capFirst (stripTrailPunct (stripLeadNumbering (collapseWS (pyStrip s))))

/-!
Model of `difflib.SequenceMatcher(None, a, b).ratio()` as used by
`OutlineExtractor._build_outline` (line 368).  The strings compared there
are cleaned heading texts of length below 200, so difflib's autojunk
heuristic (which only activates for second sequences of length >= 200) and
its junk-extension loops are no-ops; what remains is the pure
longest-matching-block recursion.
-/

/-- Lookup in an association list with default 0; models
`j2len.get(j - 1, 0)` on the Python dict. -/
def lookupD (m : List (Nat × Nat)) (j : Nat) : Nat :=
  ((m.find? (fun p => p.1 == j)).map Prod.snd).getD 0

/-- Model of `SequenceMatcher.find_longest_match(alo, ahi, blo, bhi)` with no
junk: the dynamic program over `i in range(alo, ahi)` and the positions `j`
of `b` equal to `a[i]` (restricted to `blo <= j < bhi`), keeping the first
`(i, j, k)` that strictly improves the best size.  Returns
`(besti, bestj, bestsize)`.  The `Nat` subtractions `i + 1 - k` and
`j + 1 - k` never truncate because a common run of length `k` ending at
`(i, j)` starts at nonnegative positions. -/
def findLongestMatch (a b : List Char) (alo ahi blo bhi : Nat) : Nat × Nat × Nat :=
  let step := fun (st : List (Nat × Nat) × (Nat × Nat × Nat)) (i : Nat) =>
    let j2old := st.1
    let c := a.getD i ' '
    let js := (List.range b.length).filter
      (fun j => (b.getD j ' ' == c) && decide (blo ≤ j) && decide (j < bhi))
    js.foldl
      (fun (st2 : List (Nat × Nat) × (Nat × Nat × Nat)) j =>
        let k := (if j = 0 then 0 else lookupD j2old (j - 1)) + 1
        let best := st2.2
        let best2 := if best.2.2 < k then (i + 1 - k, j + 1 - k, k) else best
        ((j, k) :: st2.1, best2))
      ([], st.2)
  ((List.range' alo (ahi - alo)).foldl step ([], (alo, blo, 0))).2

/-- Recursion of `SequenceMatcher.get_matching_blocks`, returning only the
total matched size (the only quantity `ratio` needs): take the longest
match of the interval, then recurse on the parts left and right of it.
Python pushes a subinterval only when it is nonempty on both sides, but an
empty subinterval contributes 0 here, so recursing unconditionally is
equivalent.  The fuel dominates the recursion depth: every recursive call
strictly shrinks `(ahi - alo) + (bhi - blo)`, which the initial fuel
bounds. -/
def matchedAux : Nat → List Char → List Char → Nat → Nat → Nat → Nat → Nat
  | 0, _, _, _, _, _, _ => 0
  | fuel + 1, a, b, alo, ahi, blo, bhi =>
    let r := findLongestMatch a b alo ahi blo bhi
    let i := r.1
    let j := r.2.1
    let k := r.2.2
    if k = 0 then 0
    else k + matchedAux fuel a b alo i blo j + matchedAux fuel a b (i + k) ahi (j + k) bhi

/-- Total size of all matching blocks of `SequenceMatcher(None, a, b)`. -/
def matchedTotal (a b : List Char) : Nat :=
  matchedAux (a.length + b.length + 1) a b 0 a.length 0 b.length

/-- Model of the test `SequenceMatcher(None, a, b).ratio() > 0.85`
(line 368-369).  `ratio()` is `2 * M / (len(a) + len(b))` and `1.0` for two
empty sequences; the comparison is decided exactly:
`2 * M / T > 17 / 20` iff `40 * M > 17 * T`.  The float computation agrees
with the exact one for all `T <= 300` occurring here, because no fraction
with such a denominator other than `17/20` itself lies within the rounding
error of the double nearest to `0.85`. -/
def simRatioGtB (a b : List Char) : Bool :=
  if a.length + b.length = 0 then true
  else decide (17 * (a.length + b.length) < 40 * matchedTotal a b)

/-!
Tiny regex model.  All patterns used by `challenge1a_solution.py` are
concatenations of: literal words (possibly an alternation of words), a
character class repeated with a fixed minimum (and sometimes a maximum of
one), and the anchor `$`.  `re.match` asks for a match of a prefix of the
text, so a pattern matches iff some choice of repetition counts matches; no
other backtracking arises for this shape of pattern.
-/

/-- Case-insensitive character equality (ASCII), for `re.IGNORECASE`. -/
def ciEq (c d : Char) : Bool :=
  c.toLower == d.toLower

/-- Case-insensitively remove a literal word from the front of the text,
returning the rest on success. -/
def stripLitCI : List Char → List Char → Option (List Char)
  | [], s => some s
  | _ :: _, [] => none
  | w :: ws, c :: cs => if ciEq w c then stripLitCI ws cs else none

/-- One piece of a compiled pattern: a literal word, an alternation of
literal words, a repeated character class with repetition bounds
(`hi = none` means unbounded), or the anchor `$`. -/
inductive RItem where
  | lit (w : List Char)
  | litAlt (ws : List (List Char))
  | cls (f : Char → Bool) (lo : Nat) (hi : Option Nat)
  | tailAnchor

/-- Decide whether the item sequence matches a prefix of the text (the
semantics of `re.match` used as a boolean).  The anchor `$` accepts at the
end of the text or before a final newline, as in Python without
`re.MULTILINE`. -/
def matchItems : List RItem → List Char → Bool
  | [], _ => true
  | RItem.lit w :: rest, s =>
    match stripLitCI w s with
    | some s2 => matchItems rest s2
    | none => false
  | RItem.litAlt ws :: rest, s =>
    ws.any (fun w =>
      match stripLitCI w s with
      | some s2 => matchItems rest s2
      | none => false)
  | RItem.cls f lo hi :: rest, s =>
    let maxRun := (s.takeWhile f).length
    let cap := match hi with
      | none => maxRun
      | some h => min h maxRun
    (List.range (cap + 1)).any (fun n => decide (lo ≤ n) && matchItems rest (s.drop n))
  | RItem.tailAnchor :: rest, s => (s.isEmpty || s == ['\n']) && matchItems rest s

/-- Python `str.count(sub)` for a nonempty `sub`: number of
non-overlapping occurrences, scanning from the left.  The fuel equals the
scanned length; every step consumes at least one character. -/
def countSubGo (sub : List Char) : Nat → List Char → Nat
  | _, [] => 0
  | 0, _ => 0
  | fuel + 1, s =>
    if sub.isPrefixOf s then 1 + countSubGo sub fuel (s.drop sub.length)
    else countSubGo sub fuel s.tail

/-- Python `str.count(sub)` (the empty-substring case returns
`len(s) + 1`, as in Python). -/
def countSub (s sub : List Char) : Nat :=
  if sub.isEmpty then s.length + 1 else countSubGo sub s.length s

/-- Python `str.split()` with no argument: maximal runs of
non-whitespace.  The fuel equals the text length; every emitted word
consumes at least one character. -/
def splitWSGo : Nat → List Char → List (List Char)
  | 0, _ => []
  | fuel + 1, t =>
    let s := t.dropWhile pyIsSpace
    match s with
    | [] => []
    | _ => s.takeWhile (fun c => !pyIsSpace c)
        :: splitWSGo fuel (s.dropWhile (fun c => !pyIsSpace c))

/-- Python `str.split()` with no argument; also the meaning of
"space-separated words" in the specification. -/
def splitWSWords (t : List Char) : List (List Char) :=
  splitWSGo t.length t

/-- Python `str.isupper()` on ASCII text: at least one cased character and
no lower-case character. -/
def pyIsUpperStr (t : List Char) : Bool :=
  t.any (fun c => c.isUpper || c.isLower) && t.all (fun c => !c.isLower)

/-- Scanner of Python `str.istitle()`: upper-case only after an uncased
character, lower-case only after a cased one; at least one cased character
overall.  State: previous character cased, some cased character seen. -/
def pyIsTitleGo : Bool → Bool → List Char → Bool
  | _, seen, [] => seen
  | prev, seen, c :: rest =>
    if c.isUpper then
      if prev then false else pyIsTitleGo true true rest
    else if c.isLower then
      if prev then pyIsTitleGo true true rest else false
    else pyIsTitleGo false seen rest

/-- Python `str.istitle()` on ASCII text. -/
def pyIsTitleStr (t : List Char) : Bool :=
  pyIsTitleGo false false t

namespace LexPipe

/-!
Embedding of `src/challenge1a_solution.py` (class `PDFOutlineExtractor`):
the lexical sibling pipeline.
-/

/-- Class `\s` in the lexical pipeline patterns. -/
def ws (c : Char) : Bool := pyIsSpace c

/-- Class `[A-Z]` under `re.IGNORECASE` (all ASCII letters). -/
def alphaCI (c : Char) : Bool := c.isAlpha

/-- Class `[A-Za-z\s]` (identical with or without `re.IGNORECASE`). -/
def alphaWs (c : Char) : Bool := c.isAlpha || pyIsSpace c

/-- Class `[IVX]` under `re.IGNORECASE`. -/
def ivxCI (c : Char) : Bool :=
  c = 'I' || c = 'V' || c = 'X' || c = 'i' || c = 'v' || c = 'x'

/-- Class `[:\-\s]`. -/
def colonDashWs (c : Char) : Bool := c = ':' || c = '-' || pyIsSpace c

/-- Class `.` (any character except newline). -/
def dotCls (c : Char) : Bool := c != '\n'

/-- Class `\d` (ASCII digits). -/
def digit (c : Char) : Bool := c.isDigit

/-- A pattern of `PDFOutlineExtractor.heading_patterns` (lines 17-38):
its Python source string (used by the level-determination logic, which
inspects the pattern text) and its compiled form. -/
structure HPattern where
  src : String
  items : List RItem

/-- The pattern table `self.heading_patterns` of lines 17-38, in order. -/
def headingPatternsLex : List HPattern :=
  [ { src := "^(Chapter|CHAPTER)\\s+\\d+[:\\-\\s]*(.+)"
    , items := [RItem.litAlt ["Chapter".data, "CHAPTER".data], RItem.cls ws 1 none,
        RItem.cls digit 1 none, RItem.cls colonDashWs 0 none, RItem.cls dotCls 1 none] }
  , { src := "^(\\d+\\.)\\s*([A-Z][A-Za-z\\s]+)"
    , items := [RItem.cls digit 1 none, RItem.lit ".".data, RItem.cls ws 0 none,
        RItem.cls alphaCI 1 (some 1), RItem.cls alphaWs 1 none] }
  , { src := "^(\\d+\\.\\d+)\\s*([A-Z][A-Za-z\\s]+)"
    , items := [RItem.cls digit 1 none, RItem.lit ".".data, RItem.cls digit 1 none,
        RItem.cls ws 0 none, RItem.cls alphaCI 1 (some 1), RItem.cls alphaWs 1 none] }
  , { src := "^(\\d+\\.\\d+\\.\\d+)\\s*([A-Z][A-Za-z\\s]+)"
    , items := [RItem.cls digit 1 none, RItem.lit ".".data, RItem.cls digit 1 none,
        RItem.lit ".".data, RItem.cls digit 1 none, RItem.cls ws 0 none,
        RItem.cls alphaCI 1 (some 1), RItem.cls alphaWs 1 none] }
  , { src := "^([IVX]+\\.)\\s*([A-Z][A-Za-z\\s]+)"
    , items := [RItem.cls ivxCI 1 none, RItem.lit ".".data, RItem.cls ws 0 none,
        RItem.cls alphaCI 1 (some 1), RItem.cls alphaWs 1 none] }
  , { src := "^([A-Z]\\.)\\s*([A-Z][A-Za-z\\s]+)"
    , items := [RItem.cls alphaCI 1 (some 1), RItem.lit ".".data, RItem.cls ws 0 none,
        RItem.cls alphaCI 1 (some 1), RItem.cls alphaWs 1 none] }
  , { src := "^([A-Z][A-Z\\s]{3,})"
    , items := [RItem.cls alphaCI 1 (some 1), RItem.cls alphaWs 3 none] }
  , { src := "^(Introduction|INTRODUCTION|Conclusion|CONCLUSION|Abstract|ABSTRACT|Summary|SUMMARY)$"
    , items := [RItem.litAlt ["Introduction".data, "INTRODUCTION".data, "Conclusion".data,
        "CONCLUSION".data, "Abstract".data, "ABSTRACT".data, "Summary".data, "SUMMARY".data],
        RItem.tailAnchor] }
  , { src := "^([A-Z][A-Za-z\\s]{5,})(?:\\s*$)"
    , items := [RItem.cls alphaCI 1 (some 1), RItem.cls alphaWs 5 none,
        RItem.cls ws 0 none, RItem.tailAnchor] }
  ]

/-- Lines 110-115 of `classify_heading_level`: determine `pattern_level`
from the *source text* of the matched pattern: `'chapter' in
pattern.lower()` or `pattern.count('\\d+\\.') == 1` gives H1, a count of 2
gives H2, a count of 3 gives H3, anything else leaves it unset. -/
def patternForcedLevel (src : String) : Option String :=
  let p := src.data
  let cnt := countSub p ("\\d+\\.".data)
  if 0 < countSub (toLowerL p) ("chapter".data) || cnt = 1 then some "H1"
  else if cnt = 2 then some "H2"
  else if cnt = 3 then some "H3"
  else none

/-- Model of `PDFOutlineExtractor.classify_heading_level` (lines 88-149).
Font sizes are exact rationals; the graded thresholds `avg * 1.5`,
`avg * 1.2`, `avg` are modelled as `avg * 3/2`, `avg * 6/5`, `avg`. -/
def classifyHeadingLevel (text : String) (fontSize : ℚ) (isBold : Bool)
    (avgFontSize : ℚ) : Option String :=
  let t := pyStrip text.data
  if t.length < 3 || 200 < t.length then none
  else if (match t.getLast? with
    | some c => c = '.' || c = '!' || c = '?' || c = ';' || c = ','
    | none => false) then none
  else
    let matched := headingPatternsLex.find? (fun p => matchItems p.items t)
    let hs0 : Nat := match matched with
      | some _ => 2
      | none => 0
    let plevel : Option String := match matched with
      | some p => patternForcedLevel p.src
      | none => none
    let fontScore : Nat :=
      if avgFontSize * 3 / 2 < fontSize then 3
      else if avgFontSize * 6 / 5 < fontSize then 2
      else if avgFontSize < fontSize then 1
      else 0
    let hs1 := hs0 + (if isBold then 1 else 0)
    let hs2 := hs1 + (if pyIsUpperStr t && decide (5 < t.length) then 1 else 0)
    let hs3 := hs2 + (if pyIsTitleStr t then 1 else 0)
    let total := hs3 + fontScore
    if 4 ≤ total || plevel == some "H1" then some "H1"
    else if 3 ≤ total || plevel == some "H2" then some "H2"
    else if 2 ≤ total || plevel == some "H3" then some "H3"
    else none

/-- One raw span collected by `extract_outline` (lines 169-177): text,
font size, font flags and 1-based page number, in reading order. -/
structure SpanTok where
  text : String
  size : ℚ
  flags : Nat
  page : Nat
deriving DecidableEq

/-- One entry of the lexical pipeline outline. -/
structure LexEntry where
  level : String
  text : String
  page : Nat
deriving DecidableEq

/-- Line 84-86: `is_bold` tests the bold bit `flags & 2**4`. -/
def isBoldFlags (flags : Nat) : Bool :=
  flags.testBit 4

/-- Lines 169-177: keep the stripped span texts that are nonempty. -/
def collectAllText (spans : List SpanTok) : List SpanTok :=
  spans.filterMap (fun sp =>
    let t := pyStrip sp.text.data
    if t.isEmpty then none else some { sp with text := String.mk t })

/-- Class `[\d\.\s\-IVX]` of the heading-cleaning regex at line 197
(no `re.IGNORECASE` there, so only upper-case Roman letters). -/
def lexLeadClass (c : Char) : Bool :=
  c.isDigit || c = '.' || pyIsSpace c || c = '-' || c = 'I' || c = 'V' || c = 'X'

/-- Reading-order comparison used by `outline.sort(key=lambda x:
(x['page'], x['level']))` at line 214: lexicographic on the page number and
the level string (Python compares the strings H1/H2/H3 lexicographically). -/
def lexOrder (a b : LexEntry) : Prop :=
  a.page < b.page ∨ (a.page = b.page ∧ a.level ≤ b.level)

instance lexOrderDec : DecidableRel lexOrder := fun a b =>
  inferInstanceAs (Decidable (a.page < b.page ∨ (a.page = b.page ∧ a.level ≤ b.level)))

instance lexOrderTotal : IsTotal LexEntry lexOrder :=
  ⟨by
    intro a b
    unfold lexOrder
    rcases Nat.lt_trichotomy a.page b.page with h | h | h
    · exact Or.inl (Or.inl h)
    · rcases le_total a.level b.level with h2 | h2
      · exact Or.inl (Or.inr ⟨h, h2⟩)
      · exact Or.inr (Or.inr ⟨h.symm, h2⟩)
    · exact Or.inr (Or.inl h)⟩

instance lexOrderTrans : IsTrans LexEntry lexOrder :=
  ⟨by
    intro a b c hab hbc
    unfold lexOrder at hab hbc ⊢
    rcases hab with h | ⟨he, hl⟩
    · rcases hbc with h2 | ⟨he2, _⟩
      · exact Or.inl (h.trans h2)
      · exact Or.inl (he2 ▸ h)
    · rcases hbc with h2 | ⟨he2, hl2⟩
      · exact Or.inl (he ▸ h2)
      · exact Or.inr ⟨he.trans he2, hl.trans hl2⟩⟩

/-- Model of `PDFOutlineExtractor.extract_outline` (lines 151-229) from the
collected span stream onward: average font size (12.0 for an empty
document), per-span classification, text cleaning, duplicate suppression
keyed on (lower-cased cleaned text, page), stable sort by (page, level)
and truncation to the first 50 entries.  Title extraction only affects the
title field and is omitted here; this function returns the outline list. -/
def extractOutlineLex (spans : List SpanTok) : List LexEntry :=
  let allText := collectAllText spans
  let sizes := allText.map (fun sp => sp.size)
  let avg : ℚ := if sizes.isEmpty then 12 else sizes.sum / sizes.length
  let step := fun (st : List (List Char × Nat) × List LexEntry) (sp : SpanTok) =>
    match classifyHeadingLevel sp.text sp.size (isBoldFlags sp.flags) avg with
    | none => st
    | some lvl =>
      let cleaned0 := pyStrip (sp.text.data.dropWhile lexLeadClass)
      let cleaned := if cleaned0.isEmpty then pyStrip sp.text.data else cleaned0
      let key := (toLowerL cleaned, sp.page)
      if !(decide (key ∈ st.1)) && decide (3 ≤ cleaned.length) then
        (key :: st.1, st.2 ++ [{ level := lvl, text := String.mk cleaned, page := sp.page }])
      else st
  let outline := (allText.foldl step ([], [])).2
  (List.insertionSort lexOrder outline).take 50

end LexPipe

namespace Clus

/-!
Embedding of `src/challenge1a/src/outline_extractor.py` (class
`OutlineExtractor`): the clustering pipeline.  The PyMuPDF document is
modelled structurally after the `page.get_text("dict")` shape; KMeans and
langdetect are external collaborators passed as functions.
-/

/-- A text span of `page.get_text("dict")`: text, font size, font name,
style flags, bounding box `(x0, y0, x1, y1)`. -/
structure Span where
  text : String
  size : ℚ
  font : String
  flags : Nat
  bbox : ℚ × ℚ × ℚ × ℚ
deriving DecidableEq

/-- A line of spans. -/
structure Line where
  spans : List Span
deriving DecidableEq

/-- A page block; image blocks carry no `lines` key, modelled by `none`. -/
structure PBlock where
  lines : Option (List Line)
deriving DecidableEq

/-- A page: its blocks. -/
structure Page where
  blocks : List PBlock
deriving DecidableEq

/-- A document: metadata title (the empty string when absent, which is
falsy in Python) and its pages. -/
structure PDFDoc where
  metaTitle : String
  pages : List Page
deriving DecidableEq

/-- A consolidated line-level text block as built by
`_extract_text_blocks` (lines 224-236). -/
structure TextBlock where
  text : String
  page : Nat
  fontSize : ℚ
  fontName : String
  fontFlags : Nat
  x : ℚ
  y : ℚ
  width : ℚ
  height : ℚ
  spanCount : Nat
deriving DecidableEq

/-- A heading candidate: the source block plus the assigned level
(line 320-322 copies the block dict and adds a `level` key). -/
structure Candidate where
  block : TextBlock
  level : String
deriving DecidableEq

/-- An outline entry (lines 350-354). -/
structure OutlineEntry where
  level : String
  text : String
  page : Nat
deriving DecidableEq

/-- The result of `extract_outline`. -/
structure OutlineResult where
  title : String
  outline : List OutlineEntry
deriving DecidableEq

/-- Nonempty test modelling Python string truthiness. -/
def truthy (s : String) : Bool :=
  !(s.data.isEmpty)

/-- Test `re.match(r'^\d+$', text)` on already-stripped text: nonempty and
all digits (the text never ends in a newline here, so `$` is plain
end-of-string). -/
def allDigits (t : List Char) : Bool :=
  !t.isEmpty && t.all Char.isDigit

/-- Model of `_extract_title` (lines 127-160): the stripped metadata title
when truthy; otherwise the first-page span whose stripped text has length
in (5, 100), font size above 14 and is not a bare number, preferring
larger fonts and then higher position; otherwise the fixed string. -/
def extractTitle (doc : PDFDoc) : String :=
  if truthy doc.metaTitle then String.mk (pyStrip doc.metaTitle.data)
  else
    match doc.pages with
    | [] => "Unknown Document"
    | page0 :: _ =>
      let cands := page0.blocks.foldl (fun acc blk =>
        match blk.lines with
        | none => acc
        | some lines => acc ++ lines.foldl (fun acc2 line =>
            acc2 ++ line.spans.filterMap (fun span =>
              let t := pyStrip span.text.data
              if 5 < t.length && t.length < 100 && decide ((14 : ℚ) < span.size)
                  && !allDigits t then
                some (String.mk t, span.size, span.bbox.2.1)
              else none)) []) []
      match (List.insertionSort
          (fun (a b : String × ℚ × ℚ) => b.2.1 < a.2.1 ∨ (a.2.1 = b.2.1 ∧ a.2.2 ≤ b.2.2))
          cands).head? with
      | some c => c.1
      | none => "Unknown Document"

/-- State of the span-consolidation fold of `_extract_text_blocks`
(lines 176-207). -/
structure LineState where
  text : List Char
  bbox : Option (ℚ × ℚ × ℚ × ℚ)
  domSize : ℚ
  domName : String
  domFlags : Nat
  spanCount : Nat

/-- Per-span step of the consolidation (lines 184-207): append the
stripped span text plus a space, track the strictly largest font seen so
far, expand the bounding box. -/
def consumeSpan (st : LineState) (span : Span) : LineState :=
  let t := pyStrip span.text.data
  if t.isEmpty then st
  else
    let st := { st with text := st.text ++ t ++ [' '], spanCount := st.spanCount + 1 }
    let st :=
      if st.domSize < span.size then
        { st with domSize := span.size, domName := span.font, domFlags := span.flags }
      else st
    match st.bbox with
    | none => { st with bbox := some span.bbox }
    | some (a, b, c, d) =>
      { st with bbox := some (min a span.bbox.1, min b span.bbox.2.1,
          max c span.bbox.2.2.1, max d span.bbox.2.2.2) }

/-- The fixed stoplist of line 218. -/
def stopList : List String :=
  ["page", "contents", "index", "references", "bibliography"]

/-- Model of the per-line part of `_extract_text_blocks` (lines 175-238):
consolidate the spans of one line and apply the noise filters. -/
def lineToBlock (pageNum : Nat) (line : Line) : Option TextBlock :=
  let st := line.spans.foldl consumeSpan
    { text := [], bbox := none, domSize := 0, domName := "", domFlags := 0, spanCount := 0 }
  let t := pyStrip st.text
  if t.length < 3 then none
  else if allDigits t || 300 < t.length
      || decide (String.mk (toLowerL t) ∈ stopList) then none
  else
    let bb := st.bbox.getD (0, 0, 0, 0)
    some { text := String.mk t, page := pageNum + 1, fontSize := st.domSize,
           fontName := st.domName, fontFlags := st.domFlags,
           x := bb.1, y := bb.2.1, width := bb.2.2.1 - bb.1, height := bb.2.2.2 - bb.2.1,
           spanCount := st.spanCount }

/-- Model of `_extract_text_blocks` (lines 162-240). -/
def extractTextBlocks (doc : PDFDoc) : List TextBlock :=
  (doc.pages.enum.map (fun pi =>
    pi.2.blocks.foldl (fun acc blk =>
      match blk.lines with
      | none => acc
      | some lines => acc ++ lines.filterMap (lineToBlock pi.1)) [])).flatten

/-- Hiragana block test `[぀-ゟ]`. -/
def isHiragana (c : Char) : Bool :=
  0x3040 ≤ c.toNat && c.toNat ≤ 0x309F

/-- Katakana block test `[゠-ヿ]`. -/
def isKatakana (c : Char) : Bool :=
  0x30A0 ≤ c.toNat && c.toNat ≤ 0x30FF

/-- Kanji block test `[一-龯]`. -/
def isKanji (c : Char) : Bool :=
  0x4E00 ≤ c.toNat && c.toNat ≤ 0x9FAF

/-- The sample text of `_detect_language` (lines 245-248): the texts of
the first 100 blocks longer than 5 characters, joined by single spaces. -/
def sampleText (blocks : List TextBlock) : String :=
  String.intercalate " " ((blocks.take 100).filterMap (fun b =>
    if 5 < b.text.length then some b.text else none))

/-- Lines 251-252: `sum(1 for pattern in self.japanese_patterns if
re.search(pattern, sample_text))` — the number of the three script
patterns that find at least one character in the sample (at most 3). -/
def japanesePatternHits (sample : String) : Nat :=
  (if sample.data.any isHiragana then 1 else 0)
    + (if sample.data.any isKatakana then 1 else 0)
    + (if sample.data.any isKanji then 1 else 0)

/-- Model of `_detect_language` (lines 242-262).  The langdetect `detect`
collaborator is the function parameter; `Except.error` models
`LangDetectError`. -/
def detectLanguage (blocks : List TextBlock) (det : String → Except Unit String) : String :=
  let sample := sampleText blocks
  if 10 < japanesePatternHits sample then "japanese"
  else
    match det sample with
    | Except.ok code => if code == "ja" then "japanese" else "english"
    | Except.error _ => "english"

/-- Number of distinct font sizes among the blocks
(`np.unique([f[0] for f in features])`, line 283). -/
def distinctFontSizes (blocks : List TextBlock) : Nat :=
  ((blocks.map (fun b => b.fontSize)).dedup).length

/-- The cluster count of lines 284-285: `k = min(len(unique_font_sizes),
8)` then `k = max(k, 3)`. -/
def kClusters (blocks : List TextBlock) : Nat :=
  max (min (distinctFontSizes blocks) 8) 3

/-- First-occurrence deduplication, modelling Python dict key insertion
order for `cluster_info` (lines 291-294). -/
def firstOccurs : List Nat → List Nat :=
  go []
where
  /-- Worker carrying the labels already seen. -/
  go (seen : List Nat) : List Nat → List Nat
    | [] => []
    | x :: r => if x ∈ seen then go seen r else x :: go (x :: seen) r

/-- The fixed `HEADING_LEVELS` constant (line 30). -/
def HEADING_LEVELS : List String :=
  ["H1", "H2", "H3"]

/-- Model of `_identify_heading_candidates` (lines 264-324).  Feature
standardization and `KMeans.fit_predict` are external; the `labels`
parameter stands for the label list KMeans returns, one label per block.
The `language` argument mirrors the Python signature (it is unused in the
Python body as well).  Cluster mean font sizes are exact rationals. -/
def identifyHeadingCandidates (blocks : List TextBlock) (language : String)
    (labels : List Nat) : List Candidate :=
  if blocks.length < 10 then []
  else
    let pairs := labels.zip blocks
    let avgOf := fun (lab : Nat) =>
      let szs := (pairs.filter (fun p => p.1 == lab)).map (fun p => p.2.fontSize)
      szs.sum / (szs.length : ℚ)
    let keys := firstOccurs labels
    let sortedKeys := List.insertionSort (fun a b => avgOf b ≤ avgOf a) keys
    let top := sortedKeys.take HEADING_LEVELS.length
    pairs.filterMap (fun p =>
      if p.1 ∈ top then
        let t := p.2.text.data
        if 150 < t.length || 20 < t.count ' ' || t.length < 4 then none
        else some { block := p.2, level := HEADING_LEVELS.getD (top.findIdx (fun l => l == p.1)) "H3" }
      else none)

/-- Reading-order comparison of `heading_candidates.sort(key=lambda x:
(x['page'], x['y']))` (line 332). -/
def candOrder (a b : Candidate) : Prop :=
  a.block.page < b.block.page
    ∨ (a.block.page = b.block.page ∧ a.block.y ≤ b.block.y)

instance candOrderDec : DecidableRel candOrder := fun a b =>
  inferInstanceAs (Decidable (a.block.page < b.block.page
    ∨ (a.block.page = b.block.page ∧ a.block.y ≤ b.block.y)))

/-- The comparison key of line 363: `item['text'].lower().strip()`. -/
def outlineKey (e : OutlineEntry) : List Char :=
  pyStrip (toLowerL e.text.data)

/-- Deduplication loop of `_build_outline` (lines 358-375): keep an entry
unless its lower-cased stripped text has similarity above 0.85 with some
previously kept key; `seen` holds the keys of the entries kept so far.
The new key is the first `SequenceMatcher` argument, the seen key the
second, as at line 368. -/
def dedupOutline (seen : List (List Char)) : List OutlineEntry → List OutlineEntry
  | [] => []
  | item :: rest =>
    if seen.any (fun s => simRatioGtB (outlineKey item) s) then dedupOutline seen rest
    else item :: dedupOutline (outlineKey item :: seen) rest

/-- Model of `_build_outline` (lines 326-377): sort candidates by page and
vertical position, clean each text, drop texts shorter than 3 characters,
capitalize, then deduplicate by fuzzy similarity. -/
def buildOutline (cands : List Candidate) : List OutlineEntry :=
  if cands.isEmpty then []
  else
    let sorted := List.insertionSort candOrder cands
    let outline := sorted.filterMap (fun c =>
      let t := stripTrailPunct (stripLeadNumbering (collapseWS (pyStrip c.block.text.data)))
      if t.length < 3 then none
      else some { level := c.level, text := String.mk (capFirst t), page := c.block.page })
    dedupOutline [] outline

/-- Model of `extract_outline` (lines 85-125).  `openRes` models
`fitz.open` together with any internal failure (the whole body sits in one
`try`, and any exception yields the fixed degraded result); `labelsOf`
models `KMeans.fit_predict`, `det` models langdetect. -/
def extractOutline (openRes : Except Unit PDFDoc)
    (labelsOf : List TextBlock → List Nat)
    (det : String → Except Unit String) : OutlineResult :=
  match openRes with
  | Except.error _ => { title := "Unknown", outline := [] }
  | Except.ok doc =>
    let title := extractTitle doc
    let blocks := extractTextBlocks doc
    let language := detectLanguage blocks det
    let cands := identifyHeadingCandidates blocks language (labelsOf blocks)
    { title := title, outline := buildOutline cands }

end Clus

namespace Persona

/-!
Embedding of `src/challenge1b/src/persona_extractor.py` (class
`PersonaTaskSectionExtractor`).  The scoring function
`_score_section_for_tasks` calls a pre-fit sklearn text classifier, so the
per-item score map is taken as a function parameter (`scoreFn`), as is the
pure-regex `_classify_section_type` (`typeFn`); the claims under check
concern the thresholding, capping, deduplication and truncation that
follow scoring (lines 303-340 and 400-435).
-/

/-- One paragraph item of `_extract_text_with_context` (lines 277-283). -/
structure TextItem where
  text : String
  page : Nat
  contextBefore : String
  contextAfter : String
  fullContext : String
deriving DecidableEq

/-- One retained section (lines 325-333).  `relevanceScores` models the
`relevance_scores` dict as an association list in insertion order. -/
structure ScoredSection where
  text : String
  page : Nat
  relevantTasks : List String
  relevanceScores : List (String × ℚ)
  sectionType : String
  length : Nat
  contextAvailable : Bool
deriving DecidableEq

/-- The sample text of `_detect_language` (line 289): texts of the first
50 items joined by spaces. -/
def sampleText (textData : List TextItem) : String :=
  String.intercalate " " ((textData.take 50).map (fun it => it.text))

/-- Line 292: `len(re.findall(r'[぀-ゟ゠-ヿ一-龯]', sample_text))` — the
number of Japanese-script characters in the sample. -/
def japaneseCharCount (sample : String) : Nat :=
  (sample.data.filter (fun c => Clus.isHiragana c || Clus.isKatakana c || Clus.isKanji c)).length

/-- Model of `_detect_language` (lines 287-301); note the fast-path
threshold here is 20, not 10. -/
def detectLanguage (textData : List TextItem) (det : String → Except Unit String) : String :=
  let sample := sampleText textData
  if 20 < japaneseCharCount sample then "japanese"
  else
    match det sample with
    | Except.ok code => if code == "ja" then "japanese" else "english"
    | Except.error _ => "english"

/-- Python `round(x, 3)` on the exact value: round half to even at three
decimal places. -/
def round3 (x : ℚ) : ℚ :=
  let n := x * 1000
  let f : ℤ := n.floor
  let r := n - (f : ℚ)
  let i : ℤ :=
    if r < 1 / 2 then f
    else if 1 / 2 < r then f + 1
    else if f % 2 = 0 then f else f + 1
  (i : ℚ) / 1000

/-- Largest retained score of a section: `max(x['relevance_scores']
.values())` (line 406); sections always carry at least one score. -/
def maxScoreOf (s : ScoredSection) : ℚ :=
  match s.relevanceScores with
  | [] => 0
  | p :: rest => rest.foldl (fun m q => max m q.2) p.2

/-- Model of `_text_similarity(text1, text2) > 0.8` (lines 424-435 with
the comparison of line 414): Jaccard similarity of the word sets, 0.0 when
either set is empty; the comparison is decided exactly
(`i / u > 4/5` iff `5 * i > 4 * u`), which agrees with the float
comparison for the small word-set sizes at hand. -/
def jaccardGtB (t1 t2 : List Char) : Bool :=
  let w1 := (splitWSWords t1).dedup
  let w2 := (splitWSWords t2).dedup
  if w1.isEmpty || w2.isEmpty then false
  else
    let inter := (w1.filter (fun w => w ∈ w2)).length
    let uni := w1.length + (w2.filter (fun w => !(w ∈ w1 : Bool))).length
    decide (4 * uni < 5 * inter)

/-- Deduplication loop of `_deduplicate_sections` (lines 408-420): the key
is the lower-cased, stripped first 100 characters; a section is dropped
when some previously kept key has Jaccard similarity above 0.8 with its
key. -/
def dedupSectionsGo (seen : List (List Char)) : List ScoredSection → List ScoredSection
  | [] => []
  | s :: rest =>
    let key := pyStrip (toLowerL (s.text.data.take 100))
    if seen.any (fun t => jaccardGtB key t) then dedupSectionsGo seen rest
    else s :: dedupSectionsGo (key :: seen) rest

/-- Descending-top-score order of `sections.sort(key=..., reverse=True)`
(line 406). -/
def secOrder (a b : ScoredSection) : Prop :=
  maxScoreOf b ≤ maxScoreOf a

instance secOrderDec : DecidableRel secOrder := fun a b =>
  inferInstanceAs (Decidable (maxScoreOf b ≤ maxScoreOf a))

instance secOrderTotal : IsTotal ScoredSection secOrder :=
  ⟨fun a b => (le_total (maxScoreOf b) (maxScoreOf a)).imp id id⟩

instance secOrderTrans : IsTrans ScoredSection secOrder :=
  ⟨fun _ _ _ hab hbc => le_trans hbc hab⟩

/-- Descending-score order of `relevant_tasks.sort(key=..., reverse=True)`
(line 319). -/
def scoreOrder (p q : String × ℚ) : Prop :=
  q.2 ≤ p.2

instance scoreOrderDec : DecidableRel scoreOrder := fun p q =>
  inferInstanceAs (Decidable (q.2 ≤ p.2))

/-- Model of `_deduplicate_sections` (lines 400-422): stable sort by
descending top score, fuzzy deduplication, truncation to 20 sections. -/
def deduplicateSections (secs : List ScoredSection) : List ScoredSection :=
  let sorted := List.insertionSort secOrder secs
  (dedupSectionsGo [] sorted).take 20

/-- Model of `_extract_task_sections` (lines 303-340).  `scoreFn` stands
for `_score_section_for_tasks` (its task_scores dict, in iteration
order); `typeFn` stands for `_classify_section_type`.  An item is kept
when some task scores strictly above 0.3; its top three tasks by score are
retained, with scores rounded to three decimals. -/
def extractTaskSections (scoreFn : TextItem → List (String × ℚ))
    (typeFn : String → String) (textData : List TextItem) : List ScoredSection :=
  let secs := textData.filterMap (fun item =>
    let scores := scoreFn item
    let relevant := scores.filter (fun p => decide ((3 : ℚ) / 10 < p.2))
    if relevant.isEmpty then none
    else
      let sorted := List.insertionSort scoreOrder relevant
      let top3 := sorted.take 3
      some { text := item.text
           , page := item.page
           , relevantTasks := top3.map Prod.fst
           , relevanceScores := top3.map (fun p => (p.1, round3 p.2))
           , sectionType := typeFn item.text
           , length := item.text.length
           , contextAvailable := truthyCtx item })
  deduplicateSections secs
where
  /-- Line 332: `bool(item['context_before'] or item['context_after'])`. -/
  truthyCtx (item : TextItem) : Bool :=
    !(item.contextBefore.data.isEmpty) || !(item.contextAfter.data.isEmpty)

end Persona

namespace Fix

/-!
Concrete fixtures used by the counterexamples and witnesses below.
-/

/-- A text block with the given text, font size and vertical position on
page 1. -/
def mkBlock (t : String) (size : ℚ) (y : ℚ) : Clus.TextBlock :=
  { text := t, page := 1, fontSize := size, fontName := "F", fontFlags := 0,
    x := 0, y := y, width := 10, height := 10, spanCount := 1 }

/-- Ten fragments that all share one font size: a valid clustering input
(at least 10 fragments) with fragment diversity 1. -/
def tenEqualBlocks : List Clus.TextBlock :=
  (List.range 10).map (fun i => mkBlock "Heading text" 12 (i : ℚ))

/-- A fragment whose text has 21 space-separated words, 20 spaces and 41
characters. -/
def block21Words : Clus.TextBlock :=
  mkBlock "a a a a a a a a a a a a a a a a a a a a a" 20 5

/-- Ten fragments: the 21-word fragment plus nine body fragments at a
smaller font size. -/
def c3Blocks : List Clus.TextBlock :=
  block21Words :: (List.range 9).map (fun i => mkBlock "xxxx" 12 (10 + i : ℚ))

/-- A cluster labelling for `c3Blocks` putting the 21-word fragment alone
in its own (largest-font) cluster. -/
def c3Labels : List Nat :=
  1 :: List.replicate 9 0

/-- A paragraph item whose text consists of 15 Hiragana characters. -/
def jpItem15 : Persona.TextItem :=
  { text := "あいうえおかきくけこさしすせそ", page := 1,
    contextBefore := "", contextAfter := "", fullContext := "" }

/-- A paragraph item whose text consists of 21 Hiragana characters. -/
def jpItem21 : Persona.TextItem :=
  { text := "あいうえおかきくけこさしすせそたちつてとな", page := 1,
    contextBefore := "", contextAfter := "", fullContext := "" }

/-- A document with no pages and an empty (falsy) metadata title. -/
def emptyDoc : Clus.PDFDoc :=
  { metaTitle := "", pages := [] }

/-- The two near-duplicate H1 heading fragments of spec Scenario B:
`"Introduction"` and `"INTRODUCTION "` on page 1, in reading order. -/
def introCands : List Clus.Candidate :=
  [ { block := mkBlock "Introduction" 20 50, level := "H1" },
    { block := mkBlock "INTRODUCTION " 20 100, level := "H1" } ]

/-- A paragraph item for the relevance-scorer witness. -/
def c9Item : Persona.TextItem :=
  { text := "analyze data trends", page := 2,
    contextBefore := "", contextAfter := "", fullContext := "" }

/-- A score map giving `c9Item` one task score above the 0.3 threshold. -/
def c9Score : Persona.TextItem → List (String × ℚ) :=
  fun _ => [("data_analysis", 1 / 2)]

/-- The section the relevance scorer emits for `c9Item` under
`c9Score`. -/
def c9Sec : Persona.ScoredSection :=
  { text := "analyze data trends", page := 2,
    relevantTasks := ["data_analysis"],
    relevanceScores := [("data_analysis", 1 / 2)],
    sectionType := "general_content", length := 19, contextAvailable := false }

end Fix

/-- Adjacency relation of whitespace-normalized text: no two consecutive
whitespace characters. -/
def wsAdj (a b : Char) : Prop :=
  ¬(pyIsSpace a = true ∧ pyIsSpace b = true)

/-- Whitespace-normalized text: every whitespace character is a plain
space and no two whitespace characters are adjacent. -/
def wsNormP (l : List Char) : Prop :=
  (∀ c ∈ l, pyIsSpace c = true → c = ' ') ∧ l.Chain' wsAdj

/-- The first character (if any) is outside the leading-strip class and
not lower-case. -/
def headOKP (l : List Char) : Prop :=
  ∀ x, l.head? = some x → leadClass x = false ∧ x.isLower = false

/-- The last character (if any) is outside the trailing-strip class. -/
def lastOKP (l : List Char) : Prop :=
  ∀ x, l.getLast? = some x → trailClass x = false

/-- Normal form of the Outline Builder cleaning step: the output shape
that `cleanHeadingText` always produces and on which it is the
identity. -/
def cleanedForm (l : List Char) : Prop :=
  headOKP l ∧ lastOKP l ∧ wsNormP l

/-!
Theorems settling the claims.
-/

/-- Bound used for claim C2: the challenge1a classifier counts how many of
the three Japanese script patterns match at all, so the count never
exceeds 3. -/
theorem japanesePatternHits_le_three (s : String) :
    Clus.japanesePatternHits s ≤ 3 := by
  unfold Clus.japanesePatternHits
  split <;> split <;> split <;> omega

/-- Claim C1, amended: for at least 10 fragments, the cluster count is
`max (min d 8) 3` for `d` the number of distinct font sizes, hence always
between 3 and 8; it is bounded by the fragment diversity whenever at least
3 distinct font sizes occur (but not in general). -/
theorem C1_cluster_count_clamped (blocks : List Clus.TextBlock)
    (h : 10 ≤ blocks.length) :
    Clus.kClusters blocks = max (min (Clus.distinctFontSizes blocks) 8) 3
      ∧ 3 ≤ Clus.kClusters blocks
      ∧ Clus.kClusters blocks ≤ 8
      ∧ (3 ≤ Clus.distinctFontSizes blocks →
          Clus.kClusters blocks ≤ Clus.distinctFontSizes blocks) := by
  unfold Clus.kClusters
  omega

/-- Witness for C1 at a concrete input. -/
theorem C1_cluster_count_clamped_witness :
    10 ≤ Fix.tenEqualBlocks.length
      ∧ (Clus.kClusters Fix.tenEqualBlocks
            = max (min (Clus.distinctFontSizes Fix.tenEqualBlocks) 8) 3
          ∧ 3 ≤ Clus.kClusters Fix.tenEqualBlocks
          ∧ Clus.kClusters Fix.tenEqualBlocks ≤ 8
          ∧ (3 ≤ Clus.distinctFontSizes Fix.tenEqualBlocks →
              Clus.kClusters Fix.tenEqualBlocks ≤ Clus.distinctFontSizes Fix.tenEqualBlocks)) :=
  ⟨by decide, C1_cluster_count_clamped Fix.tenEqualBlocks (by decide)⟩

/-- Counterexample to claim C1 as stated: ten fragments sharing one font
size give `k = 3`, which exceeds the fragment diversity 1. -/
theorem C1_counterexample :
    Clus.kClusters Fix.tenEqualBlocks = 3
      ∧ Clus.distinctFontSizes Fix.tenEqualBlocks = 1
      ∧ ¬ Clus.kClusters Fix.tenEqualBlocks ≤ Clus.distinctFontSizes Fix.tenEqualBlocks := by
  with_unfolding_all decide

/-- Claim C2, amended: in challenge1a the classifier counts matching
script patterns (at most 3), so the `> 10` fast path never fires and the
general detector is always consulted; in challenge1b the fast path counts
Japanese characters against the threshold 20 and, above it, returns
`japanese` without consulting the detector. -/
theorem C2_japanese_fast_path :
    (∀ blocks det, Clus.detectLanguage blocks det =
        (match det (Clus.sampleText blocks) with
          | Except.ok code => if code == "ja" then "japanese" else "english"
          | Except.error _ => "english"))
      ∧ (∀ textData det det2,
          20 < Persona.japaneseCharCount (Persona.sampleText textData) →
            Persona.detectLanguage textData det = "japanese"
              ∧ Persona.detectLanguage textData det
                  = Persona.detectLanguage textData det2) := by
  constructor
  · intro blocks det
    unfold Clus.detectLanguage
    rw [if_neg]
    have h := japanesePatternHits_le_three (Clus.sampleText blocks)
    omega
  · intro textData det det2 h
    unfold Persona.detectLanguage
    rw [if_pos h, if_pos h]
    exact ⟨rfl, rfl⟩

/-- Witness for C2 at a concrete input: 21 Japanese characters trigger
the challenge1b fast path whatever the detector does. -/
theorem C2_japanese_fast_path_witness :
    20 < Persona.japaneseCharCount (Persona.sampleText [Fix.jpItem21])
      ∧ Persona.detectLanguage [Fix.jpItem21] (fun _ => Except.ok "en") = "japanese" :=
  ⟨by decide,
    (C2_japanese_fast_path.2 [Fix.jpItem21] (fun _ => Except.ok "en")
      (fun _ => Except.error ()) (by decide)).1⟩

/-- Counterexample to claim C2 as stated: a sampled text of 15 Japanese
characters (more than 10 matches) does not make the classifier return
`japanese` immediately: the challenge1b classifier consults the general
detector and returns its verdict (`english` here, threshold 20), and the
challenge1a classifier counts only 1 matching pattern on the same text, so
its fast path does not fire either. -/
theorem C2_counterexample :
    10 < Persona.japaneseCharCount (Persona.sampleText [Fix.jpItem15])
      ∧ Persona.detectLanguage [Fix.jpItem15] (fun _ => Except.ok "en") = "english"
      ∧ Clus.japanesePatternHits (Persona.sampleText [Fix.jpItem15]) = 1 := by
  decide

/-- Claim C4: the clustering pipeline entry point returns the degraded
`Unknown` result on any open/processing error, and the
`Unknown Document` title with an empty outline for a document with no
pages and no metadata title; it never propagates an exception (in the
model, it is a total function into `OutlineResult`). -/
theorem C4_extract_outline_boundary :
    (∀ labelsOf det,
        Clus.extractOutline (Except.error ()) labelsOf det
          = { title := "Unknown", outline := [] })
      ∧ (∀ doc labelsOf det, doc.metaTitle = "" → doc.pages = [] →
          Clus.extractOutline (Except.ok doc) labelsOf det
            = { title := "Unknown Document", outline := [] }) := by
  constructor
  · intro labelsOf det
    rfl
  · intro doc labelsOf det h1 h2
    obtain ⟨mt, pg⟩ := doc
    simp only at h1 h2
    subst h1
    subst h2
    rfl

/-- Witness for C4 at a concrete input. -/
theorem C4_extract_outline_boundary_witness :
    Clus.extractOutline (Except.error ()) (fun _ => []) (fun _ => Except.ok "ja")
        = { title := "Unknown", outline := [] }
      ∧ Clus.extractOutline (Except.ok Fix.emptyDoc) (fun _ => []) (fun _ => Except.ok "ja")
        = { title := "Unknown Document", outline := [] } :=
  ⟨C4_extract_outline_boundary.1 (fun _ => []) (fun _ => Except.ok "ja"),
    C4_extract_outline_boundary.2 Fix.emptyDoc (fun _ => []) (fun _ => Except.ok "ja") rfl rfl⟩

/-- Claim C6: fewer than 10 fragments make the clusterer return the empty
candidate list (a total function in the model, so it cannot raise). -/
theorem C6_min_fragment_guard (blocks : List Clus.TextBlock)
    (language : String) (labels : List Nat) (h : blocks.length < 10) :
    Clus.identifyHeadingCandidates blocks language labels = [] := by
  unfold Clus.identifyHeadingCandidates
  exact if_pos h

/-- Witness for C6 at a concrete input. -/
theorem C6_min_fragment_guard_witness :
    ([Fix.block21Words].length < 10)
      ∧ Clus.identifyHeadingCandidates [Fix.block21Words] "english" [0] = [] :=
  ⟨by decide, C6_min_fragment_guard [Fix.block21Words] "english" [0] (by decide)⟩

/-- Claim C8 (code bug): the numbering override is mis-levelled.  With
font size equal to the page average and no boldness, `"1.2 overview"`
scores 2 (below every band) yet is forced to H1 — not H2 as the spec says
— because the depth-2 pattern source contains the literal `\d+\.` once;
`"1.2.3 system"` is forced to H2, not H3; and no pattern in the table can
ever force H3 (the `count == 3` branch is dead code). -/
theorem C8_numbering_override_eval :
    LexPipe.classifyHeadingLevel "1.2 overview" 12 false 12 = some "H1"
      ∧ LexPipe.classifyHeadingLevel "1.2.3 system" 12 false 12 = some "H2"
      ∧ ∀ p ∈ LexPipe.headingPatternsLex, ¬ LexPipe.patternForcedLevel p.src = some "H3" := by
  with_unfolding_all decide

/-- Claim C3, amended: every heading candidate produced by the clusterer
has text of length between 4 and 150 characters containing at most 20
space characters (hence at most 21 space-separated words); fragments with
length above 150, below 4, or with more than 20 spaces are discarded. -/
theorem C3_candidate_filters (blocks : List Clus.TextBlock) (language : String)
    (labels : List Nat) (c : Clus.Candidate)
    (h : c ∈ Clus.identifyHeadingCandidates blocks language labels) :
    4 ≤ c.block.text.length ∧ c.block.text.length ≤ 150
      ∧ c.block.text.data.count ' ' ≤ 20 := by
  unfold Clus.identifyHeadingCandidates at h
  by_cases hlen : blocks.length < 10
  · rw [if_pos hlen] at h
    simp at h
  · rw [if_neg hlen] at h
    simp only [List.mem_filterMap] at h
    obtain ⟨p, _, hf⟩ := h
    obtain ⟨lab, blk⟩ := p
    obtain ⟨btext, bpage, bsize, bname, bflags, bx, bys, bw, bh, bcnt⟩ := blk
    split at hf
    · split at hf
      · exact absurd hf (by simp)
      · next hguard =>
        obtain rfl := Option.some.inj hf
        simp only [Bool.or_eq_true, decide_eq_true_eq, not_or] at hguard
        refine ⟨?_, ?_, ?_⟩ <;> simp only [String.length] <;> omega
    · exact absurd hf (by simp)

/-- Witness for C3 at a concrete input: the 21-word fragment becomes a
candidate and satisfies the amended bounds. -/
theorem C3_candidate_filters_witness :
    ({ block := Fix.block21Words, level := "H1" } : Clus.Candidate)
        ∈ Clus.identifyHeadingCandidates Fix.c3Blocks "english" Fix.c3Labels
      ∧ (4 ≤ Fix.block21Words.text.length ∧ Fix.block21Words.text.length ≤ 150
          ∧ Fix.block21Words.text.data.count ' ' ≤ 20) :=
  ⟨by with_unfolding_all decide,
    C3_candidate_filters Fix.c3Blocks "english" Fix.c3Labels
      { block := Fix.block21Words, level := "H1" } (by with_unfolding_all decide)⟩

/-- Counterexample to claim C3 as stated: a fragment of 21 space-separated
words (20 spaces, 41 characters) passes the content filter — the code only
discards above 20 space characters — and becomes a heading candidate. -/
theorem C3_counterexample :
    ∃ c ∈ Clus.identifyHeadingCandidates Fix.c3Blocks "english" Fix.c3Labels,
      20 < (splitWSWords c.block.text.data).length := by
  with_unfolding_all decide

/-- Helper for C9: the deduplication loop only removes sections. -/
theorem dedupSectionsGo_sublist (l : List Persona.ScoredSection)
    (seen : List (List Char)) :
    List.Sublist (Persona.dedupSectionsGo seen l) l := by
  induction l generalizing seen with
  | nil => exact List.Sublist.refl []
  | cons s rest ih =>
    unfold Persona.dedupSectionsGo
    dsimp only
    split
    · exact (ih seen).cons s
    · exact (ih _).cons₂ s

/-- Helper for C9: what `_deduplicate_sections` guarantees — at most 20
sections, ordered by descending top score, all drawn from the input. -/
theorem deduplicateSections_spec (secs : List Persona.ScoredSection) :
    (Persona.deduplicateSections secs).length ≤ 20
      ∧ (Persona.deduplicateSections secs).Pairwise Persona.secOrder
      ∧ ∀ s ∈ Persona.deduplicateSections secs, s ∈ secs := by
  unfold Persona.deduplicateSections
  refine ⟨List.length_take_le _ _, ?_, ?_⟩
  · exact List.Pairwise.sublist
      ((List.take_sublist _ _).trans (dedupSectionsGo_sublist _ _))
      (List.sorted_insertionSort Persona.secOrder _)
  · intro s hs
    have hs2 : s ∈ List.insertionSort Persona.secOrder secs :=
      ((List.take_sublist _ _).trans (dedupSectionsGo_sublist _ _)).subset hs
    exact (List.perm_insertionSort Persona.secOrder secs).mem_iff.mp hs2

/-- Claim C9: every emitted section carries at most its top 3 task scores
and stems from a paragraph item with some raw task score strictly above
the 0.3 threshold (items with all scores at or below it are dropped); the
output has at most 20 sections and is ordered by descending top score. -/
theorem C9_relevance_sections (scoreFn : Persona.TextItem → List (String × ℚ))
    (typeFn : String → String) (textData : List Persona.TextItem) :
    (Persona.extractTaskSections scoreFn typeFn textData).length ≤ 20
      ∧ (Persona.extractTaskSections scoreFn typeFn textData).Pairwise Persona.secOrder
      ∧ ∀ s ∈ Persona.extractTaskSections scoreFn typeFn textData,
          s.relevantTasks.length ≤ 3 ∧ s.relevanceScores.length ≤ 3
            ∧ ∃ item ∈ textData, s.text = item.text ∧ s.page = item.page
                ∧ ∃ p ∈ scoreFn item, (3 : ℚ) / 10 < p.2 := by
  obtain ⟨secs, hout, hsecs⟩ :
      ∃ secs, Persona.extractTaskSections scoreFn typeFn textData
          = Persona.deduplicateSections secs
        ∧ ∀ s ∈ secs, s.relevantTasks.length ≤ 3 ∧ s.relevanceScores.length ≤ 3
            ∧ ∃ item ∈ textData, s.text = item.text ∧ s.page = item.page
                ∧ ∃ p ∈ scoreFn item, (3 : ℚ) / 10 < p.2 := by
    refine ⟨_, rfl, ?_⟩
    intro s hs
    rw [List.mem_filterMap] at hs
    obtain ⟨item, hitem, heq⟩ := hs
    dsimp only at heq
    split at heq
    · exact absurd heq (by simp)
    · next hne =>
      obtain rfl := Option.some.inj heq
      refine ⟨?_, ?_, item, hitem, rfl, rfl, ?_⟩
      · simp
      · simp
      · have hne2 : (scoreFn item).filter (fun p => decide ((3 : ℚ) / 10 < p.2)) ≠ [] := by
          simpa [List.isEmpty_iff] using hne
        obtain ⟨p, hp⟩ := List.exists_mem_of_ne_nil _ hne2
        rw [List.mem_filter] at hp
        exact ⟨p, hp.1, by simpa using hp.2⟩
  rw [hout]
  refine ⟨(deduplicateSections_spec secs).1, (deduplicateSections_spec secs).2.1, ?_⟩
  intro s hs
  exact hsecs s ((deduplicateSections_spec secs).2.2 s hs)

/-- Witness for C9 at a concrete input. -/
theorem C9_relevance_sections_witness :
    Fix.c9Sec ∈ Persona.extractTaskSections Fix.c9Score (fun _ => "general_content") [Fix.c9Item]
      ∧ (Fix.c9Sec.relevantTasks.length ≤ 3 ∧ Fix.c9Sec.relevanceScores.length ≤ 3
          ∧ ∃ item ∈ [Fix.c9Item], Fix.c9Sec.text = item.text ∧ Fix.c9Sec.page = item.page
              ∧ ∃ p ∈ Fix.c9Score item, (3 : ℚ) / 10 < p.2) :=
  ⟨by with_unfolding_all decide,
    (C9_relevance_sections Fix.c9Score (fun _ => "general_content") [Fix.c9Item]).2.2
      Fix.c9Sec (by with_unfolding_all decide)⟩

/-- Helper for C5: an entry kept by the deduplication loop is dissimilar
from every key in `seen`. -/
theorem dedupOutline_keeps_dissimilar (l : List Clus.OutlineEntry)
    (seen : List (List Char)) (e : Clus.OutlineEntry)
    (he : e ∈ Clus.dedupOutline seen l) :
    ∀ s ∈ seen, simRatioGtB (Clus.outlineKey e) s = false := by
  induction l generalizing seen with
  | nil => simp [Clus.dedupOutline] at he
  | cons item rest ih =>
    unfold Clus.dedupOutline at he
    split at he
    · exact ih seen he
    · next hany =>
      rcases List.mem_cons.mp he with rfl | hmem
      · intro s hs
        have := List.any_eq_false.mp (by simpa using hany)
        simpa using this s hs
      · intro s hs
        exact ih _ hmem s (List.mem_cons_of_mem _ hs)

/-- Helper for C5: the deduplication loop output is pairwise dissimilar
(the later entry's key against the earlier entry's key, as in the code). -/
theorem dedupOutline_pairwise (l : List Clus.OutlineEntry) (seen : List (List Char)) :
    (Clus.dedupOutline seen l).Pairwise
      (fun e1 e2 => simRatioGtB (Clus.outlineKey e2) (Clus.outlineKey e1) = false) := by
  induction l generalizing seen with
  | nil => exact List.Pairwise.nil
  | cons item rest ih =>
    unfold Clus.dedupOutline
    split
    · exact ih seen
    · refine List.Pairwise.cons ?_ (ih _)
      intro e2 he2
      exact dedupOutline_keeps_dissimilar rest _ e2 he2 (Clus.outlineKey item)
        (List.mem_cons_self _ _)

/-- Claim C5: in the final outline, for any earlier entry `e1` and later
entry `e2`, the similarity ratio of their lower-cased stripped texts is
not above 0.85 (so at most one of any such similar pair appears); and the
two near-duplicate H1 fragments `"Introduction"` / `"INTRODUCTION "` of
Scenario B yield exactly the single entry `"Introduction"`. -/
theorem C5_outline_dedup :
    (∀ cands, (Clus.buildOutline cands).Pairwise
        (fun e1 e2 => simRatioGtB (Clus.outlineKey e2) (Clus.outlineKey e1) = false))
      ∧ Clus.buildOutline Fix.introCands
          = [{ level := "H1", text := "Introduction", page := 1 }] := by
  constructor
  · intro cands
    unfold Clus.buildOutline
    dsimp only
    split
    · exact List.Pairwise.nil
    · exact dedupOutline_pairwise _ []
  · with_unfolding_all decide

/-- Wrapper: `rdropWhile` yields a prefix of its input. -/
theorem rdropWhile_isPre (p : Char → Bool) (l : List Char) :
    List.IsPrefix (List.rdropWhile p l) l :=
  List.rdropWhile_prefix p l

/-- Wrapper: a chain restricted to a prefix is a chain. -/
theorem chainIsPre {R : Char → Char → Prop} {m l1 : List Char}
    (h : m.Chain' R) (hp : List.IsPrefix l1 m) : l1.Chain' R :=
  List.Chain'.prefix h hp

/-- Whitespace characters are in the leading-strip class. -/
theorem ws_leadClass (x : Char) (h : pyIsSpace x = true) : leadClass x = true := by
  simp [leadClass, h]

/-- Whitespace characters are in the trailing-strip class. -/
theorem ws_trailClass (x : Char) (h : pyIsSpace x = true) : trailClass x = true := by
  simp [trailClass, h]

/-- Characters outside the leading-strip class are not whitespace. -/
theorem not_ws_of_not_lead (x : Char) (h : leadClass x = false) : pyIsSpace x = false := by
  cases hx : pyIsSpace x
  · rfl
  · rw [ws_leadClass x hx] at h
    exact h

/-- Characters outside the trailing-strip class are not whitespace. -/
theorem not_ws_of_not_trail (x : Char) (h : trailClass x = false) : pyIsSpace x = false := by
  cases hx : pyIsSpace x
  · rfl
  · rw [ws_trailClass x hx] at h
    exact h

/-- A list whose head does not satisfy `p` is unchanged by `dropWhile`. -/
theorem dropWhile_eq_self_of_head (p : Char → Bool) (l : List Char)
    (h : ∀ x, l.head? = some x → p x = false) : l.dropWhile p = l := by
  cases l with
  | nil => rfl
  | cons c rest => simp [List.dropWhile_cons, h c rfl]

/-- The head of a `dropWhile` result does not satisfy the predicate. -/
theorem head?_dropWhile (p : Char → Bool) (l : List Char) (x : Char)
    (h : (l.dropWhile p).head? = some x) : p x = false := by
  induction l with
  | nil => simp [List.dropWhile] at h
  | cons c rest ih =>
    rw [List.dropWhile_cons] at h
    by_cases hc : p c = true
    · rw [if_pos hc] at h
      exact ih h
    · rw [if_neg hc] at h
      obtain rfl : c = x := by simpa using h
      simpa using hc

/-- A list whose last element does not satisfy `p` is unchanged by
`rdropWhile`. -/
theorem rdropWhile_eq_self_of_getLast (p : Char → Bool) (l : List Char)
    (h : ∀ x, l.getLast? = some x → p x = false) : List.rdropWhile p l = l := by
  rw [List.rdropWhile_eq_self_iff]
  intro hl
  have := h (l.getLast hl) (List.getLast?_eq_getLast l hl)
  simp [this]

/-- The last element of an `rdropWhile` result does not satisfy the
predicate. -/
theorem getLast?_rdropWhile (p : Char → Bool) (l : List Char) (x : Char)
    (h : (List.rdropWhile p l).getLast? = some x) : p x = false := by
  rw [List.rdropWhile, List.getLast?_reverse] at h
  exact head?_dropWhile p l.reverse x h

/-- The head survives `rdropWhile` (a prefix operation). -/
theorem head?_rdropWhile (p : Char → Bool) (l : List Char) (x : Char)
    (h : (List.rdropWhile p l).head? = some x) : l.head? = some x := by
  obtain ⟨t, ht⟩ := rdropWhile_isPre p l
  cases hr : List.rdropWhile p l with
  | nil => rw [hr] at h; simp at h
  | cons a r =>
    rw [hr] at h ht
    rw [← ht]
    simpa using h

/-- Whitespace normalization is preserved by `dropWhile` (a suffix). -/
theorem wsNormP_dropWhile (p : Char → Bool) (l : List Char) (h : wsNormP l) :
    wsNormP (l.dropWhile p) :=
  ⟨fun c hc => h.1 c ((List.dropWhile_sublist p).subset hc),
    h.2.suffix (List.dropWhile_suffix p)⟩

/-- Whitespace normalization is preserved by `rdropWhile` (a prefix). -/
theorem wsNormP_rdropWhile (p : Char → Bool) (l : List Char) (h : wsNormP l) :
    wsNormP (List.rdropWhile p l) :=
  ⟨fun c hc => h.1 c ((rdropWhile_isPre p l).sublist.subset hc),
    chainIsPre h.2 (rdropWhile_isPre p l)⟩

/-- The whitespace collapser produces normalized text, and in
continuation state (`b = true`) its output never starts with
whitespace. -/
theorem collapseGo_spec (l : List Char) :
    (∀ x, (collapseGo true l).head? = some x → pyIsSpace x = false)
      ∧ ∀ b, wsNormP (collapseGo b l) := by
  induction l with
  | nil =>
    refine ⟨fun x hx => by simp [collapseGo] at hx, fun b => ⟨fun c hc => ?_, ?_⟩⟩
    · simp [collapseGo] at hc
    · simp [collapseGo]
  | cons c rest ih =>
    obtain ⟨ihHead, ihNorm⟩ := ih
    by_cases hc : pyIsSpace c = true
    · have etrue : collapseGo true (c :: rest) = collapseGo true rest := by
        simp [collapseGo, hc]
      have efalse : collapseGo false (c :: rest) = ' ' :: collapseGo true rest := by
        simp [collapseGo, hc]
      refine ⟨fun x hx => ihHead x (by rwa [etrue] at hx), fun b => ?_⟩
      cases b
      · rw [efalse]
        refine ⟨fun d hd => ?_, ?_⟩
        · rcases List.mem_cons.mp hd with rfl | hd2
          · intro _; rfl
          · exact (ihNorm true).1 d hd2
        · rw [List.chain'_cons']
          refine ⟨fun y hy => ?_, (ihNorm true).2⟩
          have hyws : pyIsSpace y = false := ihHead y (Option.mem_def.mp hy)
          exact fun hp => by rw [hyws] at hp; exact Bool.false_ne_true hp.2
      · rw [etrue]
        exact ihNorm true
    · have eboth : ∀ b, collapseGo b (c :: rest) = c :: collapseGo false rest := by
        intro b; cases b <;> simp [collapseGo, hc]
      refine ⟨fun x hx => ?_, fun b => ?_⟩
      · rw [eboth true] at hx
        obtain rfl : c = x := by simpa using hx
        simpa using hc
      · rw [eboth b]
        refine ⟨fun d hd => ?_, ?_⟩
        · rcases List.mem_cons.mp hd with rfl | hd2
          · intro hws; exact absurd hws hc
          · exact (ihNorm false).1 d hd2
        · rw [List.chain'_cons']
          exact ⟨fun y _ => fun hp => hc hp.1, (ihNorm false).2⟩

/-- The whitespace collapser is the identity on normalized text. -/
theorem collapseGo_eq_self (l : List Char) (h : wsNormP l) : collapseGo false l = l := by
  induction l with
  | nil => rfl
  | cons c rest ih =>
    have hrest : wsNormP rest :=
      ⟨fun d hd => h.1 d (List.mem_cons_of_mem _ hd), h.2.tail⟩
    by_cases hc : pyIsSpace c = true
    · have hcsp : c = ' ' := h.1 c (List.mem_cons_self _ _) hc
      have h1 : collapseGo false (c :: rest) = ' ' :: collapseGo true rest := by
        simp [collapseGo, hc]
      have h2 : collapseGo true rest = rest := by
        cases rest with
        | nil => rfl
        | cons d r2 =>
          have hadj : wsAdj c d := (List.chain'_cons.mp h.2).1
          have hd : pyIsSpace d = false := by
            cases hdws : pyIsSpace d
            · rfl
            · exact absurd ⟨hc, hdws⟩ hadj
          have e1 : collapseGo true (d :: r2) = d :: collapseGo false r2 := by
            simp [collapseGo, hd]
          have e2 : collapseGo false (d :: r2) = d :: collapseGo false r2 := by
            simp [collapseGo, hd]
          rw [e1, ← e2]
          exact ih hrest
      rw [h1, h2, hcsp]
    · have h1 : collapseGo false (c :: rest) = c :: collapseGo false rest := by
        simp [collapseGo, hc]
      rw [h1, ih hrest]

/-- Upper-casing a lower-case ASCII letter yields an upper-case letter,
which is outside both strip classes, not lower-case, and not
whitespace. -/
theorem charUpperFacts (c : Char) (h : c.isLower = true) :
    leadClass c.toUpper = false ∧ trailClass c.toUpper = false
      ∧ (c.toUpper).isLower = false ∧ pyIsSpace c.toUpper = false := by
  have hn : 97 ≤ c.toNat ∧ c.toNat ≤ 122 := by
    simp only [Char.isLower, Bool.and_eq_true, decide_eq_true_eq] at h
    exact ⟨h.1, h.2⟩
  have ht : c.toUpper = Char.ofNat (c.toNat - 32) := by
    unfold Char.toUpper
    rw [if_pos ⟨hn.1, hn.2⟩]
  rw [ht]
  obtain ⟨h1, h2⟩ := hn
  set n := c.toNat with hnn
  clear_value n
  interval_cases n <;> decide

/-- The cleaning step is the identity on text in normal form. -/
theorem cleanHeadingText_eq_self (l : List Char) (h : cleanedForm l) :
    cleanHeadingText l = l := by
  obtain ⟨hh, hl, hw⟩ := h
  have hwsHead : ∀ x, l.head? = some x → pyIsSpace x = false :=
    fun x hx => not_ws_of_not_lead x (hh x hx).1
  have hwsLast : ∀ x, l.getLast? = some x → pyIsSpace x = false :=
    fun x hx => not_ws_of_not_trail x (hl x hx)
  have hstrip : pyStrip l = l := by
    unfold pyStrip
    rw [dropWhile_eq_self_of_head _ _ hwsHead, rdropWhile_eq_self_of_getLast _ _ hwsLast]
  have hcollapse : collapseWS l = l := collapseGo_eq_self l hw
  have hlead : stripLeadNumbering l = l := by
    unfold stripLeadNumbering
    rw [dropWhile_eq_self_of_head _ _ (fun x hx => (hh x hx).1), hstrip]
  have htrail : stripTrailPunct l = l := by
    unfold stripTrailPunct
    rw [rdropWhile_eq_self_of_getLast _ _ hl, hstrip]
  have hcap : capFirst l = l := by
    cases l with
    | nil => rfl
    | cons c rest =>
      have := (hh c rfl).2
      simp [capFirst, this]
  unfold cleanHeadingText
  rw [hstrip, hcollapse, hlead, htrail, hcap]

/-- The cleaning step always produces text in normal form. -/
theorem cleanedForm_cleanHeadingText (s : List Char) :
    cleanedForm (cleanHeadingText s) := by
  have hw2 : wsNormP (collapseWS (pyStrip s)) := (collapseGo_spec (pyStrip s)).2 false
  set p2 := collapseWS (pyStrip s) with hp2
  set q1 := p2.dropWhile leadClass with hq1
  have hq1head : ∀ x, q1.head? = some x → leadClass x = false :=
    fun x hx => head?_dropWhile _ _ x hx
  have hwq1 : wsNormP q1 := wsNormP_dropWhile _ _ hw2
  have hq1ws : ∀ x, q1.head? = some x → pyIsSpace x = false :=
    fun x hx => not_ws_of_not_lead x (hq1head x hx)
  have hp3eq : stripLeadNumbering p2 = List.rdropWhile pyIsSpace q1 := by
    unfold stripLeadNumbering pyStrip
    rw [← hq1, dropWhile_eq_self_of_head _ _ hq1ws]
  set p3 := List.rdropWhile pyIsSpace q1 with hp3
  have hp3head : ∀ x, p3.head? = some x → leadClass x = false :=
    fun x hx => hq1head x (head?_rdropWhile _ _ x hx)
  have hw3 : wsNormP p3 := wsNormP_rdropWhile _ _ hwq1
  set r1 := List.rdropWhile trailClass p3 with hr1
  have hr1last : ∀ x, r1.getLast? = some x → trailClass x = false :=
    fun x hx => getLast?_rdropWhile _ _ x hx
  have hr1head : ∀ x, r1.head? = some x → leadClass x = false :=
    fun x hx => hp3head x (head?_rdropWhile _ _ x hx)
  have hwr1 : wsNormP r1 := wsNormP_rdropWhile _ _ hw3
  have hp4eq : stripTrailPunct p3 = r1 := by
    unfold stripTrailPunct pyStrip
    rw [← hr1, dropWhile_eq_self_of_head _ _
        (fun x hx => not_ws_of_not_lead x (hr1head x hx)),
      rdropWhile_eq_self_of_getLast _ _
        (fun x hx => not_ws_of_not_trail x (hr1last x hx))]
  have hclean : cleanHeadingText s = capFirst r1 := by
    unfold cleanHeadingText
    rw [← hp2, hp3eq, hp4eq]
  rw [hclean]
  cases hr : r1 with
  | nil =>
    refine ⟨fun x hx => ?_, fun x hx => ?_, fun c hc => ?_, ?_⟩
    · simp [capFirst] at hx
    · simp [capFirst] at hx
    · simp [capFirst] at hc
    · simp [capFirst]
  | cons c rest =>
    have hheadc : leadClass c = false := hr1head c (by rw [hr]; rfl)
    by_cases hlow : c.isLower = true
    · have hcap : capFirst (c :: rest) = c.toUpper :: rest := by
        simp [capFirst, hlow]
      obtain ⟨hu1, hu2, hu3, hu4⟩ := charUpperFacts c hlow
      rw [hcap]
      refine ⟨fun x hx => ?_, fun x hx => ?_, fun d hd => ?_, ?_⟩
      · obtain rfl : c.toUpper = x := by simpa using hx
        exact ⟨hu1, hu3⟩
      · cases rest with
        | nil =>
          obtain rfl : c.toUpper = x := by simpa using hx
          exact hu2
        | cons d r2 =>
          rw [List.getLast?_cons_cons] at hx
          exact hr1last x (by rw [hr, List.getLast?_cons_cons]; exact hx)
      · rcases List.mem_cons.mp hd with rfl | hd2
        · intro hws; rw [hu4] at hws; exact absurd hws Bool.false_ne_true
        · exact (hwr1.1 d (by rw [hr]; exact List.mem_cons_of_mem _ hd2))
      · rw [List.chain'_cons']
        constructor
        · intro y _
          exact fun hp => by rw [hu4] at hp; exact Bool.false_ne_true hp.1
        · have := hwr1.2
          rw [hr] at this
          exact this.tail
    · have hcap : capFirst (c :: rest) = c :: rest := by
        simp [capFirst, hlow]
      rw [hcap, ← hr]
      refine ⟨fun x hx => ?_, hr1last, hwr1⟩
      rw [hr] at hx
      obtain rfl : c = x := by simpa using hx
      exact ⟨hheadc, by simpa using hlow⟩

/-- Claim C7: the Outline Builder text-cleaning step (collapse whitespace
runs, strip leading numbering, strip trailing punctuation, capitalize a
lower-case first letter) is idempotent: applying it to an already-cleaned
string returns the string unchanged. -/
theorem C7_cleaning_idempotent (s : String) :
    cleanHeadingText (cleanHeadingText s.data) = cleanHeadingText s.data :=
  cleanHeadingText_eq_self _ (cleanedForm_cleanHeadingText s.data)

/-- Claim C10: the lexical pipeline outline is the first 50 entries of the
(page, level-label)-sorted heading list, so for every input it has at most
50 entries and is sorted by page and then by level label. -/
theorem C10_lex_outline_cap (spans : List LexPipe.SpanTok) :
    (LexPipe.extractOutlineLex spans).length ≤ 50
      ∧ (LexPipe.extractOutlineLex spans).Pairwise LexPipe.lexOrder := by
  obtain ⟨x, hx⟩ : ∃ x, LexPipe.extractOutlineLex spans
      = (List.insertionSort LexPipe.lexOrder x).take 50 := ⟨_, rfl⟩
  rw [hx]
  exact ⟨List.length_take_le _ _,
    List.Pairwise.sublist (List.take_sublist _ _)
      (List.sorted_insertionSort LexPipe.lexOrder x)⟩

end PdfEngine
